import Mathlib

/-!
Shallow embedding of the enrollment aggregation pipeline of this repository
(analysis.py, analyze_enrollment.py, dashboard.py, app.py, generate_data.py),
together with theorems settling the specification claims about it.

Numeric columns are idealised as exact rationals (the spec mandates exact
integer/decimal arithmetic in section 4.2); pandas float division, which never
raises but produces the IEEE markers inf, -inf and NaN on division by zero, is
modelled explicitly by the `PValue` type.
-/

namespace Uidi

/-- Value of a pandas float cell after arithmetic: a finite value (idealised as
a rational), positive or negative infinity, or NaN.  The three non-finite
constructors are the explicit markers pandas produces instead of raising on
division by zero. -/
inductive PValue where
  | fin : ℚ → PValue
  | posInf : PValue
  | negInf : PValue
  | nan : PValue
deriving DecidableEq

/-- Pandas float division, applied cell-wise: division by zero does not raise;
by IEEE-754 rules it yields `posInf` for a positive numerator, `negInf` for a
negative numerator, and `nan` for `0 / 0`. -/
def pdiv (a b : ℚ) : PValue :=
  if b = 0 then (if 0 < a then .posInf else if a < 0 then .negInf else .nan)
  else .fin (a / b)

/-- Multiplication of a pandas float cell by the positive constant 100 (used by
`Enrolment_Percentage` in analysis.py line 35); infinities and NaN are
preserved, as in IEEE-754 arithmetic. -/
def PValue.mulHundred : PValue → PValue
  | .fin q => .fin (q * 100)
  | v => v

/-- Rounding a rational to `d` decimal places, modelling pandas `Series.round`.
The tie-breaking rule of the platform is immaterial to the claims checked here;
`round` is Mathlib's rounding of the scaled value to the nearest integer. -/
def roundTo (d : ℕ) (q : ℚ) : ℚ := ((round (q * 10 ^ d) : ℤ) : ℚ) / 10 ^ d

/-- `Series.round` applied to a pandas float cell: finite values are rounded,
infinities and NaN are preserved. -/
def PValue.roundP (d : ℕ) : PValue → PValue
  | .fin q => .fin (roundTo d q)
  | v => v

/-- A non-finite pandas cell: the explicit undefined marker (inf, -inf or NaN)
left by a division by zero. -/
def PValue.isUndef : PValue → Bool
  | .fin _ => false
  | _ => true

/-- The derived metric columns computed by analysis.py lines 27-35 for one row:
`Expected_Children`, `Enrolment_Gap`, `Gap_Ratio` (rounded to 2 decimals) and
`Enrolment_Percentage` (rounded to 1 decimal). -/
structure Metrics where
  expected : ℚ
  gap : ℚ
  gapRatioRounded : PValue
  enrolPctRounded : PValue
deriving DecidableEq

/-- The per-row metric computation of analysis.py lines 27-35:
`Expected_Children = Population * expected_fraction` (the source hardcodes the
fraction 0.08; following spec section 9 it is a caller-supplied parameter
here, and the source's computation is the instance `expected_fraction = 0.08`),
`Enrolment_Gap = Expected_Children - Enrolment`,
`Gap_Ratio = (Enrolment_Gap / Expected_Children).round(2)`,
`Enrolment_Percentage = (Enrolment / Expected_Children * 100).round(1)`. -/
def computeMetrics (population expected_fraction enrolment : ℚ) : Metrics :=
  let expected := population * expected_fraction
  let gap := expected - enrolment
  { expected := expected
    gap := gap
    gapRatioRounded := (pdiv gap expected).roundP 2
    enrolPctRounded := ((pdiv enrolment expected).mulHundred).roundP 1 }

/-! String helpers.  The pipeline parses dates and numbers out of CSV cells;
core `String` functions are re-implemented here by structural recursion on the
underlying character list, mirroring their behaviour on the ASCII data this
repository processes. -/

/-- The numeric value of an ASCII digit character, `none` for a non-digit. -/
def digitVal (c : Char) : Option ℕ :=
  if c.toNat ≥ 48 ∧ c.toNat ≤ 57 then some (c.toNat - 48) else none

/-- Accumulate a decimal number from a digit list; `none` on any non-digit. -/
def natOfDigits : List Char → ℕ → Option ℕ
  | [], acc => some acc
  | c :: rest, acc =>
    match digitVal c with
    | some d => natOfDigits rest (acc * 10 + d)
    | none => none

/-- Parse a nonempty all-digit string as a natural number. -/
def strToNat (s : String) : Option ℕ :=
  match s.data with
  | [] => none
  | l => natOfDigits l 0

/-- Parse an optionally `-`-signed integer string; models what pandas
`to_numeric` does to the integer-valued cells of this repository's CSVs
(non-numeric text fails to parse). -/
def strToInt (s : String) : Option ℤ :=
  match s.data with
  | '-' :: rest =>
    match natOfDigits rest 0 with
    | some n => if rest = [] then none else some (-(n : ℤ))
    | none => none
  | _ => (strToNat s).map (fun n => (n : ℤ))

/-- Drop leading whitespace, then reverse (applied twice this trims a list). -/
def trimAux (l : List Char) : List Char := (l.dropWhile Char.isWhitespace).reverse

/-- Whitespace-trimming of a string, as `df.columns.str.strip()` applies to
column names in analyze_enrollment.py line 32. -/
def strTrim (s : String) : String := String.mk (trimAux (trimAux s.data))

/-- Split a character list at `-` separators, producing the separated pieces
(used to parse the `%d-%m-%Y` date format). -/
def splitOnDash (l : List Char) (cur : List Char) : List String :=
  match l with
  | [] => [String.mk cur.reverse]
  | c :: rest =>
    if c = '-' then String.mk cur.reverse :: splitOnDash rest []
    else splitOnDash rest (c :: cur)

/-- Code-point comparison of characters. -/
def charListLe : List Char → List Char → Bool
  | [], _ => true
  | _ :: _, [] => false
  | a :: as, b :: bs =>
    if a.toNat = b.toNat then charListLe as bs else decide (a.toNat < b.toNat)

/-- Lexicographic code-point order on strings: the order in which pandas sorts
string group keys. -/
def strLe (a b : String) : Bool := charListLe a.data b.data

/-! Embedding of analyze_enrollment.py: the `clean_data` stage (lines 29-46)
and the per-state aggregation (lines 85-89), together with the generic
top-level exception handler of `main` (lines 206-210). -/

/-- One raw CSV row of the daily per-district schema.  A `none` field is a
cell that is missing in the file (pandas reads an empty cell as NaN; in
particular an empty `state` string is read as a missing value).  Cell contents
are kept as strings, as pandas holds unparsed columns. -/
structure RawRow where
  date : String
  state : Option String
  district : Option String
  pincode : Option String
  age_0_5 : Option String
  age_5_17 : Option String
  age_18_greater : Option String
deriving DecidableEq

/-- A loaded dataframe: the list of column names actually present in the CSV
together with the rows.  A column named in code but absent from `cols` is a
column the mapping references but the input lacks. -/
structure Frame where
  cols : List String
  rows : List RawRow
deriving DecidableEq

/-- The failures `clean_data` can raise: a `ValueError` from
`pd.to_datetime(..., format=..., errors='raise')` on an unparseable date, or a
`KeyError` from accessing / `dropna`-subsetting a column absent from the
frame. -/
inductive CleanError where
  | dateParse : String → CleanError
  | keyError : String → CleanError
deriving DecidableEq

/-- A cleaned row: parsed date, the key columns, and the age-bucket columns
after `pd.to_numeric(..., errors='coerce')` (`none` is NaN: a missing cell or
a cell that failed to coerce). -/
structure CleanRow where
  date : ℕ × ℕ × ℕ
  state : Option String
  district : Option String
  pincode : Option String
  age_0_5 : Option ℤ
  age_5_17 : Option ℤ
  age_18_greater : Option ℤ
deriving DecidableEq

/-- Parse a date string under the one fixed format `%d-%m-%Y` of
analyze_enrollment.py line 35: three dash-separated numeric fields with the
day in 1..31 and the month in 1..12. -/
def parseDDMMYYYY (s : String) : Option (ℕ × ℕ × ℕ) :=
  match splitOnDash s.data [] with
  | [d, m, y] =>
    match strToNat d, strToNat m, strToNat y with
    | some dd, some mm, some yy =>
      if 1 ≤ dd ∧ dd ≤ 31 ∧ 1 ≤ mm ∧ mm ≤ 12 then some (dd, mm, yy) else none
    | _, _, _ => none
  | _ => none

/-- `pd.to_numeric(col, errors='coerce')` on one cell: a missing cell stays
missing, a non-numeric cell becomes missing (NaN), never an error. -/
def toNumericCoerce (v : Option String) : Option ℤ := v.bind strToInt

/-- Build the cleaned row for a parsed date: every age-bucket column is
coerced independently. -/
def coerceRow (d : ℕ × ℕ × ℕ) (r : RawRow) : CleanRow :=
  { date := d
    state := r.state
    district := r.district
    pincode := r.pincode
    age_0_5 := toNumericCoerce r.age_0_5
    age_5_17 := toNumericCoerce r.age_5_17
    age_18_greater := toNumericCoerce r.age_18_greater }

/-- `pd.to_datetime(df['date'], format='%d-%m-%Y')` with the default
`errors='raise'`: the whole column is converted, and the first row whose date
fails to parse raises, aborting the call. -/
def parseDates : List RawRow → Except CleanError (List ((ℕ × ℕ × ℕ) × RawRow))
  | [] => .ok []
  | r :: rest =>
    match parseDDMMYYYY r.date with
    | none => .error (.dateParse r.date)
    | some d => (parseDates rest).map (fun l => (d, r) :: l)

/-- The age-bucket columns of analyze_enrollment.py line 38. -/
def numericCols : List String := ["age_0_5", "age_5_17", "age_18_greater"]

/-- The `dropna` subset of analyze_enrollment.py line 44. -/
def dropnaSubset : List String := ["state", "district", "pincode"] ++ numericCols

/-- The `dropna(subset=..., how='all')` keep condition: a row is kept unless
all six subset columns are missing. -/
def keepRow (r : CleanRow) : Bool :=
  r.state.isSome || r.district.isSome || r.pincode.isSome ||
  (CleanRow.age_0_5 r).isSome || (CleanRow.age_5_17 r).isSome ||
  (CleanRow.age_18_greater r).isSome

/-- The keep condition of `dropna(subset=..., how='all')` expressed on the raw
row: some key column is present or some age bucket coerces. -/
def rawKeep (r : RawRow) : Bool :=
  r.state.isSome || r.district.isSome || r.pincode.isSome ||
  (toNumericCoerce r.age_0_5).isSome || (toNumericCoerce r.age_5_17).isSome ||
  (toNumericCoerce r.age_18_greater).isSome

/-- `clean_data` of analyze_enrollment.py lines 29-46, in source order:
strip column names; convert the `date` column with the fixed format and the
default `errors='raise'` (accessing a missing `date` column raises `KeyError`,
an unparseable date raises `ValueError`); coerce each age-bucket column that
is present (the `if col in df.columns` check skips absent ones, which is
unobservable here because the following `dropna(subset=...)` raises `KeyError`
on the first subset column absent from the frame, so cleaned rows are only
produced when every subset column is present); finally drop the rows whose six
subset columns are all missing (`how='all'`). -/
def clean_data (f : Frame) : Except CleanError (List CleanRow) :=
  let cols := f.cols.map strTrim
  if ("date") ∈ cols then
    match parseDates f.rows with
    | .error e => .error e
    | .ok parsed =>
      match dropnaSubset.find? (fun c => decide (c ∉ cols)) with
      | some c => .error (.keyError c)
      | none => .ok ((parsed.map (fun p => coerceRow p.1 p.2)).filter keepRow)
  else .error (.keyError ("date"))

/-- `df[age_columns].sum(axis=1)` for one cleaned row (analyze_enrollment.py
line 87): missing buckets are skipped by pandas `sum`, hence contribute 0. -/
def rowTotal (r : CleanRow) : ℤ :=
  (CleanRow.age_0_5 r).getD 0 + (CleanRow.age_5_17 r).getD 0 +
    (CleanRow.age_18_greater r).getD 0

/-- Add a value into the accumulator entry of a group key, creating the entry
at the end if the key is new: the incremental form of a groupby-sum. -/
def addToGroup (acc : List (String × ℤ)) (key : String) (v : ℤ) :
    List (String × ℤ) :=
  match acc with
  | [] => [(key, v)]
  | (k, s) :: rest =>
    if k = key then (k, s + v) :: rest else (k, s) :: addToGroup rest key v

/-- `df.groupby('state')['total_enrollments'].sum()` of
analyze_enrollment.py line 88: rows whose group key is missing are dropped by
pandas groupby (its default `dropna=True`). -/
def stateGroupSum (rs : List CleanRow) : List (String × ℤ) :=
  rs.foldl
    (fun acc r =>
      match r.state with
      | some k => addToGroup acc k (rowTotal r)
      | none => acc)
    []

/-- Sum of the per-group values of a groupby result. -/
def sumSnd (l : List (String × ℤ)) : ℤ := (l.map Prod.snd).sum

/-- The message printed by the generic handler
`except Exception as e: print(f"An error occurred: ...")` of
analyze_enrollment.py lines 206-210 (schematic text; what matters is that
every failure kind is collapsed into one formatted string). -/
def errorMessage : CleanError → String
  | .dateParse s => "An error occurred: time data " ++ s ++ " does not match format"
  | .keyError c => "An error occurred: " ++ c

/-- The `main` pipeline of analyze_enrollment.py restricted to the stages the
claims are about: clean, then aggregate by state; any raised error is caught
by the single generic `except Exception` handler and surfaced to the caller
only as a formatted message string. -/
def mainResult (f : Frame) : Except String (List (String × ℤ)) :=
  match clean_data f with
  | .error e => .error (errorMessage e)
  | .ok rows => .ok (stateGroupSum rows)

/-! Concrete inputs used by counterexamples and witnesses. -/

/-- The full column set of the daily per-district schema. -/
def allCols : List String :=
  ["date", "state", "district", "pincode", "age_0_5", "age_5_17", "age_18_greater"]

/-- A well-formed row: parseable date, all key columns present, one bucket. -/
def rowGood : RawRow :=
  { date := "01-01-2023", state := some ("A"), district := some ("D")
    pincode := some ("1"), age_0_5 := some ("5"), age_5_17 := none
    age_18_greater := none }

/-- A row whose date does not parse under `%d-%m-%Y` (month 13). -/
def rowBadDate : RawRow := { rowGood with date := "31-13-2023" }

/-- A frame holding one good row and one row with an unparseable date. -/
def frameBadDate : Frame := { cols := allCols, rows := [rowGood, rowBadDate] }

/-- A row whose state is present but whose age-bucket cells all fail to
coerce to numbers. -/
def rowBucketsFail : RawRow :=
  { date := "02-01-2023", state := some ("A"), district := none
    pincode := none, age_0_5 := some ("x"), age_5_17 := some ("y")
    age_18_greater := some ("zz") }

/-- A frame holding only `rowBucketsFail`. -/
def frameBucketsFail : Frame := { cols := allCols, rows := [rowBucketsFail] }

/-- The spec example's region-"A" row: `region_key="A"`, `age_0_5=5`. -/
def rowRegionA : RawRow :=
  { date := "01-01-2023", state := some ("A"), district := none
    pincode := none, age_0_5 := some ("5"), age_5_17 := none
    age_18_greater := none }

/-- The spec example's empty-region row: `region_key=""` is read by pandas as
a missing value, `age_0_5=10`. -/
def rowRegionBlank : RawRow :=
  { date := "01-01-2023", state := none, district := none
    pincode := none, age_0_5 := some ("10"), age_5_17 := none
    age_18_greater := none }

/-- The frame of the spec's dropped-row example. -/
def frameRegionExample : Frame :=
  { cols := allCols, rows := [rowRegionA, rowRegionBlank] }

/-- The cleaned form of `rowRegionA`. -/
def cleanRegionA : CleanRow :=
  { date := (1, 1, 2023), state := some ("A"), district := none
    pincode := none, age_0_5 := some 5, age_5_17 := none
    age_18_greater := none }

/-- The cleaned form of `rowRegionBlank`. -/
def cleanRegionBlank : CleanRow :=
  { date := (1, 1, 2023), state := none, district := none
    pincode := none, age_0_5 := some 10, age_5_17 := none
    age_18_greater := none }

/-- A frame whose field mapping references the age-bucket column `age_0_5`
that the input lacks. -/
def frameMissingBucket : Frame :=
  { cols := ["date", "state", "district", "pincode", "age_5_17", "age_18_greater"]
    rows := [rowGood] }

/-! Embedding of dashboard.py `plot_state_comparison` (lines 89-97). -/

/-- One row of the generated sample data, restricted to the fields the state
comparison uses. -/
structure DashRow where
  state : String
  total_enrollments : ℤ
deriving DecidableEq

/-- The grouping fold underlying `df.groupby('state')[...].sum()`. -/
def dashGroupFold (rows : List DashRow) : List (String × ℤ) :=
  rows.foldl (fun acc r => addToGroup acc r.state r.total_enrollments) []

/-- Comparator on group entries by key, ascending. -/
def keyLe (a b : String × ℤ) : Bool := strLe a.1 b.1

/-- `df.groupby('state')['total_enrollments'].sum()`: group sums indexed by
state, with the index sorted ascending (pandas groupby default
`sort=True` does specify the key order). -/
def dashGroupSum (rows : List DashRow) : List (String × ℤ) :=
  (dashGroupFold rows).mergeSort keyLe

/-- `.sort_values(ascending=False)` on the group sums.  The code calls
`sort_values` with the default `kind='quicksort'`, which is not stable, so
the program guarantees only that the output is a permutation of the input
sorted descending on the summed values; the relative order of entries with
equal values is left unspecified.  This predicate holds of exactly the
outputs the code's contract permits, so the sort is embedded as a relation
rather than a function. -/
def SortValuesDescSpec (l out : List (String × ℤ)) : Prop :=
  List.Perm l out ∧ out.Pairwise (fun a b => b.2 ≤ a.2)

/-- `plot_state_comparison`'s data projection, dashboard.py line 91:
`df.groupby('state')['total_enrollments'].sum().sort_values(ascending=False).head(top_n)`
— `out` is a possible result exactly when it is the `top_n`-prefix of some
descending value sort of the group sums. -/
def PlotStateComparisonSpec (rows : List DashRow) (top_n : ℕ)
    (out : List (String × ℤ)) : Prop :=
  ∃ sorted, SortValuesDescSpec (dashGroupSum rows) sorted ∧
    out = sorted.take top_n

/-! Embedding of the rolling mean of app.py lines 324-327:
`daily_ts.rolling(window=w, min_periods=1).mean()`. -/

/-- The window of points feeding output position `i`: the up-to-`w` points
ending at (and including) position `i`. -/
def windowSlice (w : ℕ) (xs : List ℚ) (i : ℕ) : List ℚ :=
  (xs.take (i + 1)).drop (i + 1 - w)

/-- The mean over the window at position `i`. -/
def windowMean (w : ℕ) (xs : List ℚ) (i : ℕ) : ℚ :=
  (windowSlice w xs i).sum / ((windowSlice w xs i).length : ℚ)

/-- `series.rolling(window=w, min_periods=1).mean()` over a time-ordered
series of values. -/
def rollingMean (w : ℕ) (xs : List ℚ) : List ℚ :=
  (List.range xs.length).map (windowMean w xs)

/-! Embedding of the row construction of generate_data.py lines 43-70. -/

/-- Python `int()` truncation toward zero of a float, idealised on
rationals. -/
def truncInt (q : ℚ) : ℤ := if 0 ≤ q then ⌊q⌋ else -⌊-q⌋

/-- The integer enrollment fields of one generated sample row. -/
structure SampleRow where
  total_enrollments : ℤ
  male_enrollments : ℤ
  female_enrollments : ℤ
  child_enrollments : ℤ
  adult_enrollments : ℤ
  senior_enrollments : ℤ
deriving DecidableEq

/-- The row construction of generate_data.py lines 43-70 as a function of the
float `base_enrollments` value and the drawn `male_ratio`:
`total = int(base)`, `male = int(base * ratio)`,
`female = int(base * (1 - ratio))`, `child = int(base * 0.25)`,
`adult = int(base * 0.55)`, `senior = int(base * 0.20)`. -/
def mkSampleRow (base mr : ℚ) : SampleRow :=
  { total_enrollments := truncInt base
    male_enrollments := truncInt (base * mr)
    female_enrollments := truncInt (base * (1 - mr))
    child_enrollments := truncInt (base * (25 / 100))
    adult_enrollments := truncInt (base * (55 / 100))
    senior_enrollments := truncInt (base * (20 / 100)) }

end Uidi

namespace Uidi

open List

/-- C1: for every population baseline, caller-supplied expected fraction and
enrolment total, the derived metrics of analysis.py satisfy
`expected = population_baseline * expected_fraction`,
`gap = expected - total`, and (whenever `expected` is nonzero, the only case in
which the ratios are finite numbers) `gap_ratio = gap / expected` rounded to 2
decimals and `enrollment_percentage = total / expected * 100` rounded to 1
decimal; in particular baseline 1000, fraction 0.08 and total 60 give
expected 80, gap 20 and gap ratio 0.25. -/
theorem computeMetrics_formulas (pb ef total : ℚ) :
    (computeMetrics pb ef total).expected = pb * ef ∧
    (computeMetrics pb ef total).gap = (computeMetrics pb ef total).expected - total ∧
    ((computeMetrics pb ef total).expected ≠ 0 →
      (computeMetrics pb ef total).gapRatioRounded =
        .fin (roundTo 2 ((computeMetrics pb ef total).gap /
          (computeMetrics pb ef total).expected)) ∧
      (computeMetrics pb ef total).enrolPctRounded =
        .fin (roundTo 1 (total / (computeMetrics pb ef total).expected * 100))) ∧
    ((computeMetrics 1000 (8 / 100) 60).expected = 80 ∧
      (computeMetrics 1000 (8 / 100) 60).gap = 20 ∧
      (computeMetrics 1000 (8 / 100) 60).gapRatioRounded = .fin (25 / 100)) := by
  refine ⟨rfl, rfl, ?_, ?_⟩
  · intro h
    have h' : pb * ef ≠ 0 := h
    simp only [computeMetrics, pdiv, if_neg h', PValue.roundP, PValue.mulHundred]
    constructor <;> trivial
  · have e1 : (computeMetrics 1000 (8 / 100) 60).expected = 80 := by
      show (1000 : ℚ) * (8 / 100) = 80
      norm_num
    have e2 : (computeMetrics 1000 (8 / 100) 60).gap = 20 := by
      show (1000 : ℚ) * (8 / 100) - 60 = 20
      norm_num
    refine ⟨e1, e2, ?_⟩
    show (pdiv ((1000 : ℚ) * (8 / 100) - 60) ((1000 : ℚ) * (8 / 100))).roundP 2
        = .fin (25 / 100)
    rw [show ((1000 : ℚ) * (8 / 100) - 60) = 20 by norm_num,
      show ((1000 : ℚ) * (8 / 100)) = 80 by norm_num, pdiv, if_neg (by norm_num)]
    show PValue.fin (roundTo 2 (20 / 80)) = .fin (25 / 100)
    have : roundTo 2 ((20 : ℚ) / 80) = 25 / 100 := by
      rw [roundTo, show ((20 : ℚ) / 80 * 10 ^ 2) = ((25 : ℤ) : ℚ) by norm_num,
        round_intCast]
      norm_num
    rw [this]

/-- Witness for C1 at the concrete input of the spec example: baseline 1000,
fraction 0.08, total 60, where `expected = 80 ≠ 0`. -/
theorem computeMetrics_formulas_witness :
    (computeMetrics 1000 (8 / 100) 60).gapRatioRounded =
      .fin (roundTo 2 ((computeMetrics 1000 (8 / 100) 60).gap /
        (computeMetrics 1000 (8 / 100) 60).expected)) ∧
    (computeMetrics 1000 (8 / 100) 60).expected = 80 :=
  ⟨((computeMetrics_formulas 1000 (8 / 100) 60).2.2.1
      (by show (1000 : ℚ) * (8 / 100) ≠ 0; norm_num)).1,
    (computeMetrics_formulas 1000 (8 / 100) 60).2.2.2.1⟩

/-- C2: whenever the expected value of a group is zero (for instance a zero
population baseline with any expected fraction), the gap ratio and enrollment
percentage of analysis.py are the explicit non-finite markers produced by
pandas float division: the (total) computation raises no error, and neither
field is the finite number 0. -/
theorem zero_expected_undef (pb ef total : ℚ) (h : pb * ef = 0) :
    (computeMetrics pb ef total).gapRatioRounded.isUndef = true ∧
    (computeMetrics pb ef total).gapRatioRounded ≠ .fin 0 ∧
    (computeMetrics pb ef total).enrolPctRounded.isUndef = true ∧
    (computeMetrics pb ef total).enrolPctRounded ≠ .fin 0 := by
  have hgap : (computeMetrics pb ef total).gapRatioRounded
      = (pdiv (-total) 0).roundP 2 := by
    simp only [computeMetrics, h, zero_sub]
  have hpct : (computeMetrics pb ef total).enrolPctRounded
      = ((pdiv total 0).mulHundred).roundP 1 := by
    simp only [computeMetrics, h]
  rw [hgap, hpct]
  rcases lt_trichotomy total 0 with ht | ht | ht
  · have hA : pdiv (-total) 0 = .posInf := by
      rw [pdiv, if_pos rfl, if_pos (by linarith)]
    have hB : pdiv total 0 = .negInf := by
      rw [pdiv, if_pos rfl, if_neg (by linarith), if_pos ht]
    simp [hA, hB, PValue.roundP, PValue.mulHundred, PValue.isUndef]
  · subst ht
    have hB : pdiv (0 : ℚ) 0 = .nan := by
      rw [pdiv, if_pos rfl, if_neg (by norm_num), if_neg (by norm_num)]
    have hA : pdiv (-(0 : ℚ)) 0 = .nan := by
      rw [neg_zero]
      exact hB
    simp [hA, hB, PValue.roundP, PValue.mulHundred, PValue.isUndef]
  · have hA : pdiv (-total) 0 = .negInf := by
      rw [pdiv, if_pos rfl, if_neg (by linarith), if_pos (by linarith)]
    have hB : pdiv total 0 = .posInf := by
      rw [pdiv, if_pos rfl, if_pos ht]
    simp [hA, hB, PValue.roundP, PValue.mulHundred, PValue.isUndef]

/-- Witness for C2 at the concrete input of the spec example: baseline 0
(so expected is 0), fraction 0.08, total 60. -/
theorem zero_expected_undef_witness :
    (computeMetrics 0 (8 / 100) 60).gapRatioRounded.isUndef = true ∧
    (computeMetrics 0 (8 / 100) 60).gapRatioRounded ≠ .fin 0 ∧
    (computeMetrics 0 (8 / 100) 60).enrolPctRounded.isUndef = true ∧
    (computeMetrics 0 (8 / 100) 60).enrolPctRounded ≠ .fin 0 :=
  zero_expected_undef 0 (8 / 100) 60 (by norm_num)

/-- Adding a value into a group accumulator adds it to the total over all
groups. -/
theorem sumSnd_addToGroup (acc : List (String × ℤ)) (k : String) (v : ℤ) :
    sumSnd (addToGroup acc k v) = sumSnd acc + v := by
  induction acc with
  | nil => simp [sumSnd, addToGroup]
  | cons hd t ih =>
    obtain ⟨k0, s0⟩ := hd
    by_cases hk : k0 = k
    · simp only [addToGroup, if_pos hk, sumSnd, List.map_cons, List.sum_cons] at ih ⊢
      ring
    · simp only [addToGroup, if_neg hk, sumSnd, List.map_cons, List.sum_cons] at ih ⊢
      omega

/-- Invariant of the grouping fold of `stateGroupSum`: the total over all
groups grows by exactly the totals of the rows whose state key is present. -/
theorem sumSnd_stateGroupFold (rs : List CleanRow) (acc : List (String × ℤ)) :
    sumSnd (rs.foldl
      (fun acc r =>
        match r.state with
        | some k => addToGroup acc k (rowTotal r)
        | none => acc) acc)
    = sumSnd acc + ((rs.filter (fun r => r.state.isSome)).map rowTotal).sum := by
  induction rs generalizing acc with
  | nil => simp
  | cons r rest ih =>
    cases hs : r.state with
    | some k =>
      simp only [List.foldl_cons, hs, List.filter_cons, Option.isSome_some,
        if_pos trivial, List.map_cons, List.sum_cons, ih, sumSnd_addToGroup]
      ring
    | none =>
      simp only [List.foldl_cons, hs, List.filter_cons, Option.isSome_none,
        List.map_cons, List.sum_cons, ih]
      simp

/-- C3 counterexample: on the cleaned record set holding the region-"A" row
(total 5) and a kept row whose state key is missing (total 10) — a set the
code's cleaning stage really produces, see the C6 theorems — the grouped sum
is 5 while the ungrouped sum is 15, because pandas `groupby` silently drops
rows with a missing group key. -/
theorem grouping_drops_missing_key_row :
    sumSnd (stateGroupSum [cleanRegionA, cleanRegionBlank]) = 5 ∧
    ([cleanRegionA, cleanRegionBlank].map rowTotal).sum = 15 ∧
    sumSnd (stateGroupSum [cleanRegionA, cleanRegionBlank]) ≠
      ([cleanRegionA, cleanRegionBlank].map rowTotal).sum := by
  refine ⟨by rfl, by rfl, ?_⟩
  intro h
  rw [(by rfl : sumSnd (stateGroupSum [cleanRegionA, cleanRegionBlank]) = 5),
    (by rfl : ([cleanRegionA, cleanRegionBlank].map rowTotal).sum = 15)] at h
  exact absurd h (by norm_num)

/-- C3 as amended: the sum of `total` across all groups of the state
aggregation equals the sum of `total` over the rows whose state key is
present; conservation over the whole input therefore holds exactly when every
cleaned record has a state key. -/
theorem stateGroupSum_conservation (rs : List CleanRow) :
    sumSnd (stateGroupSum rs)
      = ((rs.filter (fun r => r.state.isSome)).map rowTotal).sum ∧
    ((∀ r ∈ rs, r.state.isSome = true) →
      sumSnd (stateGroupSum rs) = (rs.map rowTotal).sum) := by
  have h1 : sumSnd (stateGroupSum rs)
      = ((rs.filter (fun r => r.state.isSome)).map rowTotal).sum := by
    have := sumSnd_stateGroupFold rs []
    simpa [stateGroupSum, sumSnd] using this
  refine ⟨h1, fun hall => ?_⟩
  rw [h1, List.filter_eq_self.mpr hall]

/-- Witness for the conditional part of the amended C3, at a one-row record
set whose state key is present. -/
theorem stateGroupSum_conservation_witness :
    sumSnd (stateGroupSum [cleanRegionA]) = ([cleanRegionA].map rowTotal).sum :=
  (stateGroupSum_conservation [cleanRegionA]).2 (by decide)

/-- C4 counterexample: on a batch holding a well-formed row and a row whose
date does not parse under the fixed format `%d-%m-%Y`, `clean_data` raises
(`pd.to_datetime` defaults to `errors='raise'`): the whole call returns the
date error and no cleaned rows — the bad row is not dropped and the good row
is not returned. -/
theorem clean_data_bad_date_aborts_batch :
    clean_data frameBadDate = .error (.dateParse ("31-13-2023")) := by rfl

/-- A column whose first unparseable date aborts the whole conversion. -/
theorem parseDates_error_of_bad (rows : List RawRow)
    (h : ∃ r ∈ rows, parseDDMMYYYY r.date = none) :
    ∃ s, parseDates rows = .error (.dateParse s) := by
  induction rows with
  | nil => simp at h
  | cons r rest ih =>
    cases hp : parseDDMMYYYY r.date with
    | none => exact ⟨r.date, by simp [parseDates, hp]⟩
    | some d =>
      obtain ⟨r', hr', hnone⟩ := h
      rcases List.mem_cons.mp hr' with rfl | hr'
      · rw [hp] at hnone
        cases hnone
      · obtain ⟨s, hs⟩ := ih ⟨r', hr', hnone⟩
        exact ⟨s, by simp [parseDates, hp, hs, Except.map]⟩

/-- C4 as amended: a row whose timestamp fails to parse under the fixed
format is fatal to the whole batch — `clean_data` returns a date-parse error
(no partial cleaned output), rather than dropping the row and cleaning the
rest. -/
theorem clean_data_abort_on_bad_date (f : Frame)
    (hdate : ("date") ∈ f.cols.map strTrim)
    (hbad : ∃ r ∈ f.rows, parseDDMMYYYY r.date = none) :
    ∃ s, clean_data f = .error (.dateParse s) := by
  obtain ⟨s, hs⟩ := parseDates_error_of_bad f.rows hbad
  refine ⟨s, ?_⟩
  simp only [clean_data]
  rw [if_pos hdate, hs]

/-- Witness for C4 as amended, at the concrete two-row batch. -/
theorem clean_data_abort_on_bad_date_witness :
    ∃ s, clean_data frameBadDate = .error (.dateParse s) :=
  clean_data_abort_on_bad_date frameBadDate (by decide)
    ⟨rowBadDate, by decide, by decide⟩

/-- C5 counterexample: a row whose state key is present but whose age-bucket
cells all fail to coerce is kept by `clean_data` (the claim says it is dropped
exactly when every bucket fails): `dropna(subset=..., how='all')` drops a row
only when the key columns are missing as well. -/
theorem all_buckets_fail_row_kept :
    (clean_data frameBucketsFail).map List.length = .ok 1 ∧
    clean_data frameBucketsFail ≠ .ok [] := by
  have he : clean_data frameBucketsFail
      = .ok [{ date := (2, 1, 2023), state := some ("A"), district := none
               pincode := none, age_0_5 := none, age_5_17 := none
               age_18_greater := none }] := by rfl
  refine ⟨by rw [he]; rfl, ?_⟩
  intro h
  rw [he] at h
  exact List.noConfusion (Except.ok.inj h)

/-- When every date of the column parses, the date conversion returns all the
rows paired with their parsed dates. -/
theorem parseDates_ok (rows : List RawRow)
    (h : ∀ r ∈ rows, (parseDDMMYYYY r.date).isSome = true) :
    parseDates rows
      = .ok (rows.map (fun r => ((parseDDMMYYYY r.date).getD (0, 0, 0), r))) := by
  induction rows with
  | nil => rfl
  | cons r rest ih =>
    obtain ⟨d, hd⟩ := Option.isSome_iff_exists.mp (h r (List.mem_cons_self r rest))
    have hrest := ih (fun r' hr' => h r' (List.mem_cons_of_mem r hr'))
    simp [parseDates, hd, hrest, Except.map]

/-- C5 as amended: when the mapping's columns are all present and every date
parses, `clean_data` returns exactly the coerced rows filtered by the
`how='all'` keep condition — a row is dropped iff its state, district and
pincode are all missing AND every age bucket fails to coerce — and a bucket
that fails to coerce contributes zero to the row total while the row is
kept. -/
theorem clean_data_keep_characterisation (f : Frame)
    (hdate : ("date") ∈ f.cols.map strTrim)
    (hsubset : ∀ c ∈ dropnaSubset, c ∈ f.cols.map strTrim)
    (hparse : ∀ r ∈ f.rows, (parseDDMMYYYY r.date).isSome = true) :
    clean_data f
      = .ok ((f.rows.map
          (fun r => coerceRow ((parseDDMMYYYY r.date).getD (0, 0, 0)) r)).filter
            keepRow) ∧
    (∀ (d : ℕ × ℕ × ℕ) (r : RawRow), keepRow (coerceRow d r) = rawKeep r) ∧
    (∀ (d : ℕ × ℕ × ℕ) (r : RawRow), rowTotal (coerceRow d r)
      = (toNumericCoerce r.age_0_5).getD 0 + (toNumericCoerce r.age_5_17).getD 0 +
        (toNumericCoerce r.age_18_greater).getD 0) := by
  refine ⟨?_, fun d r => rfl, fun d r => rfl⟩
  simp only [clean_data]
  rw [if_pos hdate, parseDates_ok f.rows hparse]
  have hfind : dropnaSubset.find? (fun c => decide (c ∉ f.cols.map strTrim))
      = none := by
    apply List.find?_eq_none.mpr
    intro c hc
    simp [hsubset c hc]
  rw [hfind]
  simp [List.map_map, Function.comp_def]

/-- Witness for C5 as amended, at the concrete one-row frame whose buckets
all fail to coerce. -/
theorem clean_data_keep_characterisation_witness :
    clean_data frameBucketsFail
      = .ok ((frameBucketsFail.rows.map
          (fun r => coerceRow ((parseDDMMYYYY r.date).getD (0, 0, 0)) r)).filter
            keepRow) :=
  (clean_data_keep_characterisation frameBucketsFail (by decide) (by decide)
    (by decide)).1

/-- C6 counterexample: on the spec's two-row example (region "A" with count 5,
empty region with count 10) the cleaning stage keeps BOTH rows — the reported
drop count, were one derivable at all, would be 0, not the 1 the claim states;
and `clean_data`'s return value carries only the cleaned rows, no drop
count. -/
theorem clean_data_returns_no_drop_count :
    (clean_data frameRegionExample).map List.length = .ok 2 := by rfl

/-- C6 as amended: cleaning returns only the cleaned rows (both rows of the
example survive, so nothing is counted as dropped by cleaning); the
empty-region row is instead silently excluded at aggregation time, because
`groupby` drops missing keys, so region "A" totals 5. -/
theorem clean_region_example_behaviour :
    clean_data frameRegionExample = .ok [cleanRegionA, cleanRegionBlank] ∧
    stateGroupSum [cleanRegionA, cleanRegionBlank] = [("A", 5)] :=
  ⟨by rfl, by rfl⟩

/-- C7 counterexample: when the mapping references the absent column
`age_0_5`, the pipeline does fail (at the `dropna` subset access) — but the
failure reaches the caller through `main`'s generic `except Exception`
catch-all as a formatted message string, the same channel through which an
unrelated date failure arrives; no distinguishable error kind is surfaced to
the caller. -/
theorem missing_column_generic_catch_all :
    clean_data frameMissingBucket = .error (.keyError ("age_0_5")) ∧
    mainResult frameMissingBucket = .error ("An error occurred: age_0_5") ∧
    mainResult frameBadDate =
      .error ("An error occurred: time data 31-13-2023 does not match format") :=
  ⟨by rfl, by rfl, by rfl⟩

/-- C7 as amended: a mapping referencing an absent age-bucket column makes
the call fail (so it never silently aggregates over the missing column), but
the failure propagates to the caller only through the generic catch-all
handler as a formatted message, not as a distinguishable error kind. -/
theorem missing_bucket_column_fails (f : Frame)
    (hdate : ("date") ∈ f.cols.map strTrim)
    (hparse : ∀ r ∈ f.rows, (parseDDMMYYYY r.date).isSome = true)
    (hkeys : ∀ c ∈ (["state", "district", "pincode"] : List String),
      c ∈ f.cols.map strTrim)
    (hmiss : ("age_0_5") ∉ f.cols.map strTrim) :
    clean_data f = .error (.keyError ("age_0_5")) ∧
    mainResult f = .error (errorMessage (.keyError ("age_0_5"))) := by
  have h1 : clean_data f = .error (.keyError ("age_0_5")) := by
    simp only [clean_data]
    rw [if_pos hdate, parseDates_ok f.rows hparse]
    have hfind : dropnaSubset.find? (fun c => decide (c ∉ f.cols.map strTrim))
        = some ("age_0_5") := by
      have hs := hkeys ("state") (by simp)
      have hd := hkeys ("district") (by simp)
      have hp := hkeys ("pincode") (by simp)
      rw [show dropnaSubset
          = ["state", "district", "pincode", "age_0_5", "age_5_17", "age_18_greater"]
        from rfl]
      rw [List.find?_cons_of_neg _ (by simp [hs]),
        List.find?_cons_of_neg _ (by simp [hd]),
        List.find?_cons_of_neg _ (by simp [hp]),
        List.find?_cons_of_pos _ (by simp [hmiss])]
    rw [hfind]
  exact ⟨h1, by simp [mainResult, h1]⟩

/-- Witness for C7 as amended, at the concrete frame lacking `age_0_5`. -/
theorem missing_bucket_column_fails_witness :
    clean_data frameMissingBucket = .error (.keyError ("age_0_5")) ∧
    mainResult frameMissingBucket = .error (errorMessage (.keyError ("age_0_5"))) :=
  missing_bucket_column_fails frameMissingBucket (by decide) (by decide)
    (by decide) (by decide)

/-- C8 counterexample: on two groups tied at total 5, the output
`[("B", 5), ("A", 5)]` satisfies everything the code's `sort_values`
guarantees (a permutation of the group sums, sorted descending on the
values — the default quicksort is unstable, so the tie order is left to the
implementation), yet its tied entries are NOT in group-key-ascending order:
the claimed tie-break is not a property of the program. -/
theorem sort_values_tie_order_unspecified :
    SortValuesDescSpec [(("A" : String), (5 : ℤ)), ("B", 5)]
      [(("B" : String), (5 : ℤ)), ("A", 5)] ∧
    ¬ ([(("B" : String), (5 : ℤ)), ("A", 5)].Pairwise
        (fun a b => a.2 = b.2 → strLe a.1 b.1 = true)) := by
  refine ⟨⟨List.Perm.swap _ _ _, ?_⟩, ?_⟩
  · exact List.Pairwise.cons (fun b hb => by
      rw [List.mem_singleton.mp hb]) (List.pairwise_singleton _ _)
  · intro h
    have h1 := (List.pairwise_cons.mp h).1 (("A" : String), (5 : ℤ))
      (List.mem_singleton_self _)
    have h2 : strLe ("B") ("A") = true := h1 rfl
    exact absurd h2 (by decide)

/-- C8 as amended: every output the ranking projection of
`plot_state_comparison` can produce has at most `top_n` entries, is sorted
descending on the summed totals, and when `top_n` is at least the number of
groups it is a permutation of the full group list rather than a failure; the
relative order of entries with equal totals is not specified by the code. -/
theorem plot_state_comparison_rank (rows : List DashRow) (n : ℕ)
    (out : List (String × ℤ)) (h : PlotStateComparisonSpec rows n out) :
    out.length ≤ n ∧
    out.Pairwise (fun a b => b.2 ≤ a.2) ∧
    ((dashGroupSum rows).length ≤ n → List.Perm out (dashGroupSum rows)) := by
  obtain ⟨sorted, ⟨hperm, hsorted⟩, rfl⟩ := h
  refine ⟨?_, ?_, ?_⟩
  · rw [List.length_take]
    exact min_le_left _ _
  · exact hsorted.sublist (List.take_sublist n sorted)
  · intro hlen
    have hlen' : (dashGroupSum rows).length = sorted.length := hperm.length_eq
    rw [List.take_of_length_le (by omega)]
    exact hperm.symm

/-- Witness for C8 as amended, at two groups with distinct totals, where the
group sums are already key-sorted and the descending sort is forced. -/
theorem plot_state_comparison_rank_witness :
    ([(("A" : String), (7 : ℤ)), ("B", 5)]).length ≤ 2 ∧
    ([(("A" : String), (7 : ℤ)), ("B", 5)]).Pairwise (fun a b => b.2 ≤ a.2) ∧
    ((dashGroupSum [DashRow.mk ("A") 7, DashRow.mk ("B") 5]).length ≤ 2 →
      List.Perm [(("A" : String), (7 : ℤ)), ("B", 5)]
        (dashGroupSum [DashRow.mk ("A") 7, DashRow.mk ("B") 5])) := by
  have hsortd : dashGroupSum [DashRow.mk ("A") 7, DashRow.mk ("B") 5]
      = [(("A" : String), (7 : ℤ)), ("B", 5)] :=
    List.mergeSort_of_sorted (by decide)
  refine plot_state_comparison_rank [DashRow.mk ("A") 7, DashRow.mk ("B") 5] 2
    _ ⟨[(("A" : String), (7 : ℤ)), ("B", 5)], ⟨?_, ?_⟩, ?_⟩
  · rw [hsortd]
  · exact List.Pairwise.cons (fun b hb => by
      rw [List.mem_singleton.mp hb]; norm_num) (List.pairwise_singleton _ _)
  · exact (List.take_of_length_le (by norm_num)).symm

/-- C9: the rolling mean with a positive window maps a series to a series of
equal length in which position `i` holds the mean of the up-to-`w` points
ending at `i` — `min w (i+1)` points, at least one, so fewer than `w` points
at the start is not an error (pandas `min_periods=1`); in particular
`rolling_mean([10,20,30], window=2) = [10, 15, 25]`. -/
theorem rollingMean_spec (w : ℕ) (xs : List ℚ) (hw : 0 < w) :
    (rollingMean w xs).length = xs.length ∧
    (∀ i (hi : i < xs.length),
      (rollingMean w xs).get ⟨i, by simpa [rollingMean] using hi⟩
        = (windowSlice w xs i).sum / ((min w (i + 1) : ℕ) : ℚ) ∧
      (windowSlice w xs i).length = min w (i + 1) ∧
      1 ≤ min w (i + 1)) ∧
    rollingMean 2 [10, 20, 30] = [10, 15, 25] := by
  refine ⟨by simp [rollingMean], ?_, ?_⟩
  · intro i hi
    have hslice : (windowSlice w xs i).length = min w (i + 1) := by
      simp only [windowSlice, List.length_drop, List.length_take]
      omega
    refine ⟨?_, hslice, by omega⟩
    have hget : (rollingMean w xs).get ⟨i, by simpa [rollingMean] using hi⟩
        = windowMean w xs i := by
      simp [rollingMean, List.get_eq_getElem, List.getElem_map, List.getElem_range]
    rw [hget, windowMean, hslice]
  · norm_num [rollingMean, windowMean, windowSlice, List.range_succ]

/-- Witness for C9 at the spec's example: window 2 over the series
10, 20, 30. -/
theorem rollingMean_spec_witness : rollingMean 2 [10, 20, 30] = [10, 15, 25] :=
  (rollingMean_spec 2 [10, 20, 30] (by norm_num)).2.2

/-- Python `int()` on a non-negative value is the floor. -/
theorem truncInt_of_nonneg {q : ℚ} (h : 0 ≤ q) : truncInt q = ⌊q⌋ := if_pos h

/-- The sum of two floors is at most the floor of the sum. -/
theorem floor_add_floor_le (x y : ℚ) : ⌊x⌋ + ⌊y⌋ ≤ ⌊x + y⌋ := by
  apply Int.le_floor.mpr
  push_cast
  exact add_le_add (Int.floor_le x) (Int.floor_le y)

/-- C10: for every generated sample row (base value non-negative — a Poisson
draw times positive factors — and male ratio drawn from [0.48, 0.52], hence
within [0, 1]), the demographic splits never exceed the stored total:
`male + female <= total` and `child + adult + senior <= total`, because each
part is the integer truncation of a fraction of the base value whose fractions
sum to at most the whole. -/
theorem generated_splits_bounded (b mr : ℚ) (hb : 0 ≤ b) (h0 : 0 ≤ mr)
    (h1 : mr ≤ 1) :
    (mkSampleRow b mr).male_enrollments + (mkSampleRow b mr).female_enrollments
      ≤ (mkSampleRow b mr).total_enrollments ∧
    (mkSampleRow b mr).child_enrollments + (mkSampleRow b mr).adult_enrollments
      + (mkSampleRow b mr).senior_enrollments
      ≤ (mkSampleRow b mr).total_enrollments := by
  have hm : 0 ≤ b * mr := mul_nonneg hb h0
  have hf : 0 ≤ b * (1 - mr) := mul_nonneg hb (by linarith)
  have hc : 0 ≤ b * (25 / 100) := mul_nonneg hb (by norm_num)
  have ha : 0 ≤ b * (55 / 100) := mul_nonneg hb (by norm_num)
  have hs : 0 ≤ b * (20 / 100) := mul_nonneg hb (by norm_num)
  constructor
  · show truncInt (b * mr) + truncInt (b * (1 - mr)) ≤ truncInt b
    rw [truncInt_of_nonneg hm, truncInt_of_nonneg hf, truncInt_of_nonneg hb]
    calc ⌊b * mr⌋ + ⌊b * (1 - mr)⌋ ≤ ⌊b * mr + b * (1 - mr)⌋ :=
          floor_add_floor_le _ _
      _ = ⌊b⌋ := by rw [show b * mr + b * (1 - mr) = b by ring]
  · show truncInt (b * (25 / 100)) + truncInt (b * (55 / 100))
        + truncInt (b * (20 / 100)) ≤ truncInt b
    rw [truncInt_of_nonneg hc, truncInt_of_nonneg ha, truncInt_of_nonneg hs,
      truncInt_of_nonneg hb]
    calc ⌊b * (25 / 100)⌋ + ⌊b * (55 / 100)⌋ + ⌊b * (20 / 100)⌋
        ≤ ⌊b * (25 / 100) + b * (55 / 100)⌋ + ⌊b * (20 / 100)⌋ := by
          have := floor_add_floor_le (b * (25 / 100)) (b * (55 / 100))
          omega
      _ ≤ ⌊b * (25 / 100) + b * (55 / 100) + b * (20 / 100)⌋ :=
          floor_add_floor_le _ _
      _ = ⌊b⌋ := by
          rw [show b * (25 / 100) + b * (55 / 100) + b * (20 / 100) = b by ring]

/-- Witness for C10 at a concrete fractional base value 1000.7 and male
ratio 0.5. -/
theorem generated_splits_bounded_witness :
    (mkSampleRow (10007 / 10) (1 / 2)).male_enrollments +
      (mkSampleRow (10007 / 10) (1 / 2)).female_enrollments
      ≤ (mkSampleRow (10007 / 10) (1 / 2)).total_enrollments ∧
    (mkSampleRow (10007 / 10) (1 / 2)).child_enrollments +
      (mkSampleRow (10007 / 10) (1 / 2)).adult_enrollments +
      (mkSampleRow (10007 / 10) (1 / 2)).senior_enrollments
      ≤ (mkSampleRow (10007 / 10) (1 / 2)).total_enrollments :=
  generated_splits_bounded (10007 / 10) (1 / 2) (by norm_num) (by norm_num)
    (by norm_num)

end Uidi
